import Mathlib

/-!
Shallow embedding of the coala plugin object-discovery engine
(`coalib/collecting/Importers.py`) and the external-bear wrapper boundary
(`coalib/bearlib/abstractions/ExternalBearWrap.py`), with theorems settling
the specification claims about them.

Python objects are modelled by the features the code inspects:
an identity (for deduplication), a class flag, the list of class identities
the object is an instance of, the linearized ancestor chain (MRO, including
the class itself, as `inspect.getmro` returns it), the attribute names it
exposes, and the source file `inspect.getfile` reports (none for builtins,
where `inspect.getfile` raises `TypeError`).
-/

namespace Coala

/-- One entry of a class's linearized ancestor chain (`inspect.getmro`):
the ancestor class's identity and the source file `inspect.getfile`
reports for it (`none` when `TypeError` is raised, i.e. builtins). -/
structure Ancestor where
  id : Nat
  sourceFile : Option String
deriving DecidableEq

/-- A Python object as the discovery code observes it. `mro` is meaningful
exactly when `isClass` is true and then starts with the class itself. -/
structure PyObj where
  id : Nat
  isClass : Bool
  /-- Identities of the classes this object is an instance of
  (its type and that type's bases), as `isinstance` would report. -/
  instOfIds : List Nat
  mro : List Ancestor
  attrs : List String
  sourceFile : Option String
deriving DecidableEq

/-- Identity of Python's builtin `tuple` class. -/
def tupleType : Nat := 0

/-- Identity of Python's builtin `int` class. -/
def intType : Nat := 1

/-- Class identities in the MRO of a class object: `issubclass(obj, s)`
holds for a class `obj` exactly when `s` is in `obj.__mro__`. -/
def PyObj.superIds (o : PyObj) : List Nat :=
  o.mro.map Ancestor.id

/-- `issubclass(test_class, superclass)` for one superclass identity:
raises `TypeError` (modelled as `Except.error`) when `test_class` is not
a class, otherwise reports MRO membership. -/
def issubclassExc (test_class : PyObj) (superclass : Nat) : Except Unit Bool :=
  if test_class.isClass then Except.ok (superclass ∈ test_class.superIds)
  else Except.error ()

/-- `_is_subclass(test_class, superclasses)` (Importers.py lines 45-52):
loops over the superclasses, returning True on the first successful
`issubclass`; a `TypeError` is swallowed and the loop continues. -/
def _is_subclass (test_class : PyObj) (superclasses : List Nat) : Bool :=
  superclasses.any fun superclass =>
    match issubclassExc test_class superclass with
    | Except.ok b => b
    | Except.error _ => false

/-- `_has_all(obj, attribute_names)` (Importers.py lines 55-59):
True iff the object has every requested attribute. -/
def _has_all (obj : PyObj) (attribute_names : List String) : Bool :=
  attribute_names.all fun attribute_name => obj.attrs.contains attribute_name

/-- The comparison inside `object_defined_in` (Importers.py lines 82-84),
applied to an `inspect.getfile` result: by Python operator precedence the
condition is `(windows and source.lower() == file_path.lower()) or
source == file_path`. -/
def sourceEquals (windows : Bool) (source file_path : String) : Bool :=
  (windows && (source.toLower == file_path.toLower)) || source == file_path

/-- `object_defined_in(obj, file_path)` (Importers.py lines 62-89) applied
to a known `inspect.getfile` outcome: builtins (no source location,
`TypeError` caught) give False. -/
def source_defined_in (windows : Bool) (source : Option String)
    (file_path : String) : Bool :=
  match source with
  | none => false
  | some s => sourceEquals windows s file_path

/-- `object_defined_in(obj, file_path)` (Importers.py lines 62-89). -/
def object_defined_in (windows : Bool) (obj : PyObj) (file_path : String) :
    Bool :=
  source_defined_in windows obj.sourceFile file_path

/-- `_is_defined_in(obj, file_path)` (Importers.py lines 92-106): for a
non-class, delegate to `object_defined_in`; for a class, scan its full
MRO (which includes the class itself). -/
def _is_defined_in (windows : Bool) (obj : PyObj) (file_path : String) :
    Bool :=
  if !obj.isClass then object_defined_in windows obj file_path
  else obj.mro.any fun base =>
    source_defined_in windows base.sourceFile file_path

/-- The filesystem and module environment one discovery call runs against:
which file paths exist (`os.path.exists`), the `inspect.getmembers` listing
of the module loaded from a path, and the standard-output writes the
module's top-level code performs while being loaded. -/
structure Env where
  files : List String
  members : String → List (String × PyObj)
  output : String → List String

/-- `_import_module(file_path, base_path)` (Importers.py lines 28-42),
restricted to what discovery consumes: raises `ImportError` (modelled as
`Except.error`) when the path does not exist, otherwise loads the module
and exposes its members. -/
def _import_module (env : Env) (file_path : String) :
    Except Unit (List (String × PyObj)) :=
  if file_path ∈ env.files then Except.ok (env.members file_path)
  else Except.error ()

/-- The filter conjunction of `_iimport_objects` (Importers.py lines
138-142). Note that line 139 literally tests `isinstance(obj, tuple)`,
i.e. whether the object is an instance of the builtin `tuple` class,
regardless of the contents of the `types` argument. `localFlag` embeds
the `local` parameter (`local[0] is False or ...`). -/
def objectMatches (windows : Bool) (names : List String)
    (types supers : List Nat) (attributes : List String) (localFlag : Bool)
    (file_path obj_name : String) (obj : PyObj) : Bool :=
  (names.isEmpty || names.contains obj_name) &&
  (types.isEmpty || obj.instOfIds.contains tupleType) &&
  (supers.isEmpty || _is_subclass obj supers) &&
  (attributes.isEmpty || _has_all obj attributes) &&
  (!localFlag || _is_defined_in windows obj file_path)

/-- The objects one loaded unit contributes, in member-enumeration order
(the body of the inner loop, Importers.py lines 137-143). -/
def unitYields (windows : Bool) (names : List String) (types supers : List Nat)
    (attributes : List String) (localFlag : Bool) (file_path : String)
    (mems : List (String × PyObj)) : List PyObj :=
  (mems.filter fun m =>
    objectMatches windows names types supers attributes localFlag
      file_path m.1 m.2).map Prod.snd

/-- Observable outcome of one discovery generator run: the objects yielded
(in order), the standard-output writes emitted by loading, and whether the
run terminated by raising (`failed = true`) instead of being exhausted. -/
structure DiscoverResult where
  yielded : List PyObj
  output : List String
  failed : Bool
deriving DecidableEq

/-- The per-unit loop of `_iimport_objects` (Importers.py lines 135-143):
each unit is loaded (emitting its top-level output), its members are
filtered and yielded; a failing load (nonexistent file) aborts the whole
run before that unit's members are enumerated. -/
def discoverUnits (env : Env) (windows : Bool) (names : List String)
    (types supers : List Nat) (attributes : List String) (localFlag : Bool) :
    List (String × String) → DiscoverResult
  | [] => ⟨[], [], false⟩
  | (file_path, _base_path) :: rest =>
    match _import_module env file_path with
    | Except.error _ => ⟨[], [], true⟩
    | Except.ok mems =>
      let r := discoverUnits env windows names types supers attributes
        localFlag rest
      ⟨unitYields windows names types supers attributes localFlag
          file_path mems ++ r.yielded,
        env.output file_path ++ r.output, r.failed⟩

/-- Modelled from the spec: the `yield_once` decorator comes from the
`coala_decorators` dependency, whose code is not part of this repository;
per spec section 4.5 it "maintains a set of already-yielded object
identities for the lifetime of one discovery call and never yields the
same identity twice". `seen` is that set of identities. -/
def yield_once (seen : List Nat) : List PyObj → List PyObj
  | [] => []
  | o :: rest =>
    if o.id ∈ seen then yield_once seen rest
    else o :: yield_once (o.id :: seen) rest

/-- `_iimport_objects(file_paths, names, types, supers, attributes, local)`
(Importers.py lines 109-143): short-circuits to an empty yield when
`file_paths` is empty or all of names/types/supers/attributes are empty
(line 132), otherwise runs the per-unit loop under the `@yield_once`
deduplication. -/
def _iimport_objects (env : Env) (windows : Bool)
    (file_paths : List (String × String)) (names : List String)
    (types supers : List Nat) (attributes : List String) (localFlag : Bool) :
    DiscoverResult :=
  if file_paths ≠ [] ∧
      (names ≠ [] ∨ types ≠ [] ∨ supers ≠ [] ∨ attributes ≠ []) then
    let r := discoverUnits env windows names types supers attributes
      localFlag file_paths
    ⟨yield_once [] r.yielded, r.output, r.failed⟩
  else ⟨[], [], false⟩

/-- Modelled from the spec: `suppress_stdout` comes from
`coalib.misc.ContextManagers`, code of this repository that is not under
`src/`; per spec sections 4.5 and 9 it discards all standard-output
writes performed within its scope. -/
def suppress_stdout (_output : List String) : List String := []

/-- `iimport_objects(..., verbose)` (Importers.py lines 146-171): the code
enters the `suppress_stdout` context exactly when `verbose` is true
(lines 165-167), then drains `_iimport_objects`. -/
def iimport_objects (env : Env) (windows : Bool)
    (file_paths : List (String × String)) (names : List String)
    (types supers : List Nat) (attributes : List String)
    (localFlag verbose : Bool) : DiscoverResult :=
  let r := _iimport_objects env windows file_paths names types supers
    attributes localFlag
  if verbose then ⟨r.yielded, suppress_stdout r.output, r.failed⟩ else r

/-! ### Qualified-name computation of the unit loader
(`_import_module`, Importers.py lines 38-41). Paths are modelled as lists
of segments; `os.path.splitext` only ever touches the last segment. -/

/-- `os.path.splitext(s)[0]` for one path segment: the extension starts at
the last dot, except that the run of leading dots of the segment never
starts an extension (`.bashrc` has no extension). -/
def splitextBase (s : String) : String :=
  let cs := s.toList
  let lead := cs.takeWhile fun c => c = '.'
  let rest := cs.dropWhile fun c => c = '.'
  match rest.reverse.indexOf? '.' with
  | some i => String.mk (lead ++ rest.take (rest.length - 1 - i))
  | none => s

/-- `os.path.splitext(path)[0]` on a segment list: strips the extension of
the last segment only. -/
def splitextSegs : List String → List String
  | [] => []
  | [x] => [splitextBase x]
  | x :: y :: xs => x :: splitextSegs (y :: xs)

/-- Length of the common segment prefix of two paths. -/
def commonPrefixLen : List String → List String → Nat
  | x :: xs, y :: ys => if x = y then commonPrefixLen xs ys + 1 else 0
  | _, _ => 0

/-- `os.path.relpath(p, base)` on normalized segment lists: climb out of
the non-shared part of `base`, then descend into the non-shared part of
`p`; the empty relative path is `"."` (`os.curdir`). -/
def relpathSegs (p base : List String) : List String :=
  let c := commonPrefixLen p base
  let r := List.replicate (base.length - c) ".." ++ p.drop c
  if r = [] then ["."] else r

/-- The `import_fullname` computation of `_import_module` (Importers.py
lines 38-41): extension stripped first, then the path is made relative to
`base_path`, then separators become `"."`. -/
def import_fullname (file_segs base_segs : List String) : String :=
  String.intercalate "." (relpathSegs (splitextSegs file_segs) base_segs)

/-- Follows the spec's words (section 4.2): "qualified_name = canonicalized
path, made relative to base_path, extension removed, separators replaced
by a namespace separator". Stated for comparison with `import_fullname`,
which the source computes in the other order. -/
def qualified_name_spec (file_segs base_segs : List String) : String :=
  String.intercalate "." (splitextSegs (relpathSegs file_segs base_segs))

/-! ### External-bear wrapper boundary
(`coalib/bearlib/abstractions/ExternalBearWrap.py`). -/

/-- The `RESULT_SEVERITY` values the wrapper maps to. -/
inductive RESULT_SEVERITY where
  | INFO
  | NORMAL
  | MAJOR
deriving DecidableEq

/-- `get_severity(result)` (ExternalBearWrap.py lines 107-124) on the
result dict's optional `severity` entry (`none` models an absent field):
any literal other than the three recognized ones raises `ValueError`. -/
def get_severity (severity : Option String) : Except Unit RESULT_SEVERITY :=
  if severity = none ∨ severity = some "NORMAL" then
    Except.ok RESULT_SEVERITY.NORMAL
  else if severity = some "MAJOR" then Except.ok RESULT_SEVERITY.MAJOR
  else if severity = some "INFO" then Except.ok RESULT_SEVERITY.INFO
  else Except.error ()

/-- The option keys `_prepare_options` accepts (ExternalBearWrap.py
lines 21-22). -/
def allowed_options : List String := ["executable", "settings"]

/-- Python `repr` of a plain string, as used in the error message: the
string wrapped in single-quote characters (code point 39). -/
def pyRepr (s : String) : String :=
  String.mk [Char.ofNat 39] ++ s ++ String.mk [Char.ofNat 39]

/-- The `ValueError` message of `_prepare_options` (ExternalBearWrap.py
lines 27-29): the superfluous option names, sorted, each `repr`ed,
comma-joined. -/
def invalidKwargsMessage (superfluous : List String) : String :=
  "Invalid keyword arguments provided: " ++
    String.intercalate ", "
      ((superfluous.insertionSort fun a b => a ≤ b).map pyRepr)

/-- `_prepare_options(options)` (ExternalBearWrap.py lines 14-29) on the
option keys: raises `ValueError` when any key outside `allowed_options`
is present. -/
def _prepare_options (optionKeys : List String) : Except String Unit :=
  let superfluous := optionKeys.filter fun k => !(allowed_options.contains k)
  if superfluous = [] then Except.ok ()
  else Except.error (invalidKwargsMessage superfluous)

/-- `external_bear_wrap(executable, **options)` (ExternalBearWrap.py lines
168-174): inserts the `executable` key into the options, validates them,
and only then builds the wrapper factory (modelled by returning the
executable on success — the factory is created only after validation). -/
def external_bear_wrap (executable : String) (optionKeys : List String) :
    Except String String :=
  match _prepare_options (optionKeys ++ ["executable"]) with
  | Except.ok _ => Except.ok executable
  | Except.error e => Except.error e

/-! ### Concrete sample objects and environments used by witnesses. -/

/-- A class defined in `plug.py`, with a `run` attribute. -/
def fooObj : PyObj :=
  ⟨10, true, [], [⟨10, some "plug.py"⟩], ["run"], some "plug.py"⟩

/-- A plain integer value (an instance of `int`, not a class, builtin
source-less). -/
def intObj : PyObj := ⟨21, false, [intType], [], [], none⟩

/-- A plain tuple value (an instance of `tuple`, not a class). -/
def tupObj : PyObj := ⟨22, false, [tupleType], [], [], none⟩

/-- Environment with one module `plug.py` defining `Foo` and printing
`hello` at load time. -/
def envA : Env :=
  ⟨["plug.py"],
    fun fp => if fp = "plug.py" then [("Foo", fooObj)] else [],
    fun fp => if fp = "plug.py" then ["hello"] else []⟩

/-- Environment with one module `m.py` whose members are a plain int and
a plain tuple; loading prints nothing. -/
def envB : Env :=
  ⟨["m.py"],
    fun fp => if fp = "m.py" then [("three", intObj), ("pair", tupObj)] else [],
    fun _ => []⟩

end Coala

namespace Coala

/-! ### Theorems settling the claims. -/

/-- C7: the severity mapping accepts exactly the literal strings
`"NORMAL"`, `"MAJOR"` and `"INFO"` (mapped to the corresponding
severities), treats an absent field as `"NORMAL"`, and raises a fatal
`ValueError` for any other literal value. -/
theorem get_severity_cases :
    get_severity none = Except.ok RESULT_SEVERITY.NORMAL ∧
    get_severity (some "NORMAL") = Except.ok RESULT_SEVERITY.NORMAL ∧
    get_severity (some "MAJOR") = Except.ok RESULT_SEVERITY.MAJOR ∧
    get_severity (some "INFO") = Except.ok RESULT_SEVERITY.INFO ∧
    ∀ s : String, s ≠ "NORMAL" → s ≠ "MAJOR" → s ≠ "INFO" →
      get_severity (some s) = Except.error () := by
  refine ⟨rfl, rfl, rfl, rfl, ?_⟩
  intro s h1 h2 h3
  simp [get_severity, h1, h2, h3]

/-- Witness for C7: the wrongly cased literal `"Info"` is rejected, at a
concrete input. -/
theorem get_severity_cases_witness :
    get_severity (some "Info") = Except.error () :=
  get_severity_cases.2.2.2.2 "Info" (by decide) (by decide) (by decide)

/-- C4: discovery short-circuits to an empty result (no loading, no
output, no failure) when the unit list is empty or all four of
names/types/supers/attributes are empty, whatever the `local` flag and
however many files the mapping holds. -/
theorem discovery_short_circuit (env : Env) (windows : Bool)
    (file_paths : List (String × String)) (names : List String)
    (types supers : List Nat) (attributes : List String) (localFlag : Bool)
    (h : file_paths = [] ∨
      (names = [] ∧ types = [] ∧ supers = [] ∧ attributes = [])) :
    _iimport_objects env windows file_paths names types supers attributes
      localFlag = ⟨[], [], false⟩ := by
  rcases h with h | ⟨h1, h2, h3, h4⟩
  · simp [_iimport_objects, h]
  · simp [_iimport_objects, h1, h2, h3, h4]

/-- Witness for C4: a non-empty file mapping with all four filter sets
empty yields nothing. -/
theorem discovery_short_circuit_witness :
    _iimport_objects envA false [("plug.py", ".")] [] [] [] [] true =
      ⟨[], [], false⟩ :=
  discovery_short_circuit envA false [("plug.py", ".")] [] [] [] [] true
    (Or.inr ⟨rfl, rfl, rfl, rfl⟩)

/-- C1 (code bug, evaluated at the failing input): the source enters the
`suppress_stdout` context exactly when `verbose` is TRUE (Importers.py
lines 165-167), so a load-time `print` is suppressed for `verbose = true`
and passes through for `verbose = false` — the reverse of the claim and
of the function's own docstring. -/
theorem verbose_suppression_inverted :
    (iimport_objects envA false [("plug.py", ".")] ["Foo"] [] [] []
      false true).output = [] ∧
    (iimport_objects envA false [("plug.py", ".")] ["Foo"] [] [] []
      false false).output = ["hello"] := by
  constructor <;> rfl

/-- C2 (code bug, evaluated at the failing input): the types dimension
(Importers.py line 139) tests `isinstance(obj, tuple)` — membership in
the builtin `tuple` class — ignoring the contents of `types`: with
`types = [int]` a plain int (whose type IS in the set) is rejected while
a plain tuple (whose type is NOT in the set) is yielded. -/
theorem types_filter_ignores_types :
    (_iimport_objects envB false [("m.py", ".")] [] [intType] [] []
      false).yielded = [tupObj] ∧
    intType ∈ intObj.instOfIds ∧ intType ∉ tupObj.instOfIds := by
  refine ⟨rfl, by decide, by decide⟩

/-- Counterexample for C3: a plain int is an instance of `int`, yet
`_is_subclass` reports false for `superclasses = [int]` — the ancestors
dimension performs no instance-of check, refuting the claimed
"subclass of, or an instance of" equivalence. -/
theorem ancestors_filter_counterexample :
    _is_subclass intObj [intType] = false ∧ intType ∈ intObj.instOfIds := by
  constructor <;> decide

/-- C3 (amended): the ancestors dimension is satisfied iff the object is
a class having at least one of the given types in its MRO; any non-class
object fails the check (the `TypeError` from `issubclass` is swallowed,
so no error is raised). -/
theorem is_subclass_spec (obj : PyObj) (supers : List Nat) :
    _is_subclass obj supers = true ↔
      obj.isClass = true ∧ ∃ s ∈ supers, s ∈ obj.superIds := by
  unfold _is_subclass issubclassExc
  cases h : obj.isClass <;>
    simp [h, List.any_eq_true]

/-- Follows the spec's words (section 4.3): the non-class rule — the
object's introspected source location exists and equals `file_path`,
case-insensitively on case-insensitive (Windows) filesystems; builtins
(no source location) never match. -/
def sourceMatchesSpec (windows : Bool) (source : Option String)
    (file_path : String) : Prop :=
  ∃ s, source = some s ∧
    (if windows then s.toLower = file_path.toLower else s = file_path)

theorem source_defined_in_iff (windows : Bool) (source : Option String)
    (file_path : String) :
    source_defined_in windows source file_path = true ↔
      sourceMatchesSpec windows source file_path := by
  cases source with
  | none => simp [source_defined_in, sourceMatchesSpec]
  | some s =>
    cases windows with
    | false => simp [source_defined_in, sourceMatchesSpec, sourceEquals]
    | true =>
      simp only [source_defined_in, sourceMatchesSpec, sourceEquals,
        Bool.true_and, Bool.or_eq_true, beq_iff_eq, if_true,
        Option.some.injEq]
      constructor
      · rintro (h | h)
        · exact ⟨s, rfl, h⟩
        · exact ⟨s, rfl, by rw [h]⟩
      · rintro ⟨t, ht, h⟩
        cases ht
        exact Or.inl h

/-- C6: the ancestry inspector returns, for a non-class object, true iff
its introspected source location equals `file_path` (case-insensitively
on Windows; builtins without a source location always fail), and for a
class, true iff some entry of its full linearized ancestor chain
(which includes the class itself) satisfies that non-class rule. -/
theorem is_defined_in_spec (windows : Bool) (obj : PyObj)
    (file_path : String) :
    _is_defined_in windows obj file_path = true ↔
      (obj.isClass = false ∧
        sourceMatchesSpec windows obj.sourceFile file_path) ∨
      (obj.isClass = true ∧
        ∃ a ∈ obj.mro, sourceMatchesSpec windows a.sourceFile file_path) := by
  cases h : obj.isClass with
  | false =>
    simp [_is_defined_in, object_defined_in, h, source_defined_in_iff]
  | true =>
    simp [_is_defined_in, h, List.any_eq_true, source_defined_in_iff]

/-- C10: the wrapper factory accepts exactly the keyword options
`executable` and `settings`: with only allowed options it returns the
wrapper factory, and any other option makes it raise a `ValueError`
whose message names precisely the superfluous options, sorted — before
any wrapper class is created. -/
theorem external_bear_wrap_validates (executable : String)
    (optionKeys : List String) :
    ((∀ k ∈ optionKeys, k ∈ allowed_options) →
      external_bear_wrap executable optionKeys = Except.ok executable) ∧
    ((∃ k ∈ optionKeys, k ∉ allowed_options) →
      ∃ l : List String,
        external_bear_wrap executable optionKeys =
          Except.error ("Invalid keyword arguments provided: " ++
            String.intercalate ", " (l.map pyRepr)) ∧
        l.Sorted (fun a b => a ≤ b) ∧
        ∀ k, k ∈ l ↔ (k ∈ optionKeys ∧ k ∉ allowed_options)) := by
  have hfilter : (optionKeys ++ ["executable"]).filter
      (fun k => !(allowed_options.contains k)) =
      optionKeys.filter (fun k => !(allowed_options.contains k)) := by
    rw [List.filter_append]
    simp [allowed_options]
  constructor
  · intro hall
    have hnil : optionKeys.filter
        (fun k => !(allowed_options.contains k)) = [] := by
      rw [List.filter_eq_nil_iff]
      intro k hk
      simp [hall k hk]
    have h1 : _prepare_options (optionKeys ++ ["executable"]) =
        Except.ok () := by
      unfold _prepare_options
      rw [hfilter, hnil]
      rfl
    unfold external_bear_wrap
    rw [h1]
  · rintro ⟨k, hk, hkna⟩
    set sup := optionKeys.filter (fun k => !(allowed_options.contains k))
      with hsup
    have hkmem : k ∈ sup := by
      rw [hsup, List.mem_filter]
      exact ⟨hk, by simpa using hkna⟩
    have hne : ¬(sup = []) := List.ne_nil_of_mem hkmem
    have h2 : _prepare_options (optionKeys ++ ["executable"]) =
        Except.error (invalidKwargsMessage sup) := by
      unfold _prepare_options
      rw [hfilter]
      rw [if_neg hne]
    refine ⟨sup.insertionSort (fun a b => a ≤ b), ?_, ?_, ?_⟩
    · unfold external_bear_wrap
      rw [h2]
      rfl
    · exact List.sorted_insertionSort _ _
    · intro x
      rw [(List.perm_insertionSort _ sup).mem_iff, hsup, List.mem_filter]
      simp

/-- Witness for C10: with the superfluous options `zeta` and `alpha`
supplied, the factory raises the sorted-name `ValueError`; with only the
allowed `settings` option it returns normally. -/
theorem external_bear_wrap_validates_witness :
    (external_bear_wrap "x" ["settings"] = Except.ok "x") ∧
    ∃ l : List String,
      external_bear_wrap "x" ["zeta", "alpha"] =
        Except.error ("Invalid keyword arguments provided: " ++
          String.intercalate ", " (l.map pyRepr)) ∧
      l.Sorted (fun a b => a ≤ b) ∧
      ∀ k, k ∈ l ↔ (k ∈ ["zeta", "alpha"] ∧ k ∉ allowed_options) :=
  ⟨(external_bear_wrap_validates "x" ["settings"]).1 (by decide),
    (external_bear_wrap_validates "x" ["zeta", "alpha"]).2
      ⟨"zeta", by decide, by decide⟩⟩

theorem yield_once_nodup (l : List PyObj) (seen : List Nat) :
    ((yield_once seen l).map PyObj.id).Nodup ∧
    ∀ x ∈ (yield_once seen l).map PyObj.id, x ∉ seen := by
  induction l generalizing seen with
  | nil => simp [yield_once]
  | cons o rest ih =>
    by_cases h : o.id ∈ seen
    · rw [yield_once, if_pos h]
      obtain ⟨hn, hs⟩ := ih seen
      exact ⟨hn, hs⟩
    · rw [yield_once, if_neg h]
      obtain ⟨hn, hs⟩ := ih (o.id :: seen)
      refine ⟨?_, ?_⟩
      · rw [List.map_cons]
        refine List.nodup_cons.mpr ⟨?_, hn⟩
        intro hmem
        exact hs o.id hmem (List.mem_cons_self _ _)
      · intro x hx
        rw [List.map_cons, List.mem_cons] at hx
        rcases hx with rfl | hx
        · exact h
        · intro hxs
          exact hs x hx (List.mem_cons_of_mem _ hxs)

/-- C5: within one discovery call, every prefix of the produced sequence
carries pairwise distinct object identities — no identity is ever yielded
twice, whatever the environment, units and filters. -/
theorem discovery_yields_nodup (env : Env) (windows : Bool)
    (file_paths : List (String × String)) (names : List String)
    (types supers : List Nat) (attributes : List String)
    (localFlag verbose : Bool) (p : List PyObj)
    (hp : p <+: (iimport_objects env windows file_paths names types supers
      attributes localFlag verbose).yielded) :
    (p.map PyObj.id).Nodup := by
  have hpub : (iimport_objects env windows file_paths names types supers
      attributes localFlag verbose).yielded =
      (_iimport_objects env windows file_paths names types supers
        attributes localFlag).yielded := by
    unfold iimport_objects
    split <;> rfl
  have hfull : ((_iimport_objects env windows file_paths names types supers
      attributes localFlag).yielded.map PyObj.id).Nodup := by
    unfold _iimport_objects
    split
    · exact (yield_once_nodup _ []).1
    · simp
  rw [hpub] at hp
  exact hfull.sublist (List.Sublist.map PyObj.id hp.sublist)

/-- Witness for C5: the whole yielded sequence of a concrete call (a
prefix of itself) has pairwise distinct identities. -/
theorem discovery_yields_nodup_witness :
    ((iimport_objects envA false [("plug.py", ".")] ["Foo"] [] [] []
      false false).yielded.map PyObj.id).Nodup :=
  discovery_yields_nodup envA false [("plug.py", ".")] ["Foo"] [] [] []
    false false _ (List.prefix_refl _)

theorem splitextSegs_cons (x : String) (l : List String) (h : l ≠ []) :
    splitextSegs (x :: l) = x :: splitextSegs l := by
  cases l with
  | nil => exact absurd rfl h
  | cons y ys => rfl

theorem splitextSegs_ne_nil (l : List String) (h : l ≠ []) :
    splitextSegs l ≠ [] := by
  cases l with
  | nil => exact absurd rfl h
  | cons x xs =>
    cases xs with
    | nil => simp [splitextSegs]
    | cons y ys => simp [splitextSegs]

theorem splitextSegs_append (base rest : List String) (hr : rest ≠ []) :
    splitextSegs (base ++ rest) = base ++ splitextSegs rest := by
  induction base with
  | nil => rfl
  | cons b bs ih =>
    have hne : bs ++ rest ≠ [] := by
      intro hc
      exact hr (List.append_eq_nil.mp hc).2
    rw [List.cons_append, splitextSegs_cons b (bs ++ rest) hne, ih,
      List.cons_append]

theorem commonPrefixLen_append (base rest : List String) :
    commonPrefixLen (base ++ rest) base = base.length := by
  induction base with
  | nil => cases rest <;> rfl
  | cons b bs ih =>
    rw [List.cons_append]
    simp [commonPrefixLen, ih]

theorem relpathSegs_append (base rest : List String) (hr : rest ≠ []) :
    relpathSegs (base ++ rest) base = rest := by
  simp only [relpathSegs]
  rw [commonPrefixLen_append, Nat.sub_self, List.replicate_zero,
    List.nil_append, List.drop_left]
  rw [if_neg hr]

/-- C9: when `base_path` is an ancestor directory of `file_path` (the
path splits as `base ++ rest` with `rest` nonempty), the unit loader's
qualified name is the file path made relative to the base path with the
extension removed and every separator replaced by `"."` — the source's
order (extension first, then relativization) agrees with the spec's
(relativization first), and both reduce to the relative part. -/
theorem import_fullname_spec (file_segs base_segs rest : List String)
    (h : file_segs = base_segs ++ rest) (hr : rest ≠ []) :
    import_fullname file_segs base_segs =
      qualified_name_spec file_segs base_segs ∧
    import_fullname file_segs base_segs =
      String.intercalate "." (splitextSegs rest) := by
  subst h
  have hcode : import_fullname (base_segs ++ rest) base_segs =
      String.intercalate "." (splitextSegs rest) := by
    unfold import_fullname
    rw [splitextSegs_append base_segs rest hr,
      relpathSegs_append base_segs (splitextSegs rest)
        (splitextSegs_ne_nil rest hr)]
  have hspec : qualified_name_spec (base_segs ++ rest) base_segs =
      String.intercalate "." (splitextSegs rest) := by
    unfold qualified_name_spec
    rw [relpathSegs_append base_segs rest hr]
  exact ⟨hcode.trans hspec.symm, hcode⟩

/-- Witness for C9: the qualified name of `proj/bears/MyBear.py` relative
to `proj` by both computations, at a concrete input. -/
theorem import_fullname_spec_witness :
    import_fullname ["proj", "bears", "MyBear.py"] ["proj"] =
      qualified_name_spec ["proj", "bears", "MyBear.py"] ["proj"] ∧
    import_fullname ["proj", "bears", "MyBear.py"] ["proj"] =
      String.intercalate "." (splitextSegs ["bears", "MyBear.py"]) :=
  import_fullname_spec ["proj", "bears", "MyBear.py"] ["proj"]
    ["bears", "MyBear.py"] rfl (by decide)

theorem discoverUnits_missing (env : Env) (windows : Bool)
    (names : List String) (types supers : List Nat)
    (attributes : List String) (localFlag : Bool)
    (pre : List (String × String)) (fp bp : String)
    (post : List (String × String))
    (hpre : ∀ u ∈ pre, u.1 ∈ env.files) (hfp : fp ∉ env.files) :
    discoverUnits env windows names types supers attributes localFlag
      (pre ++ (fp, bp) :: post) =
    ⟨(discoverUnits env windows names types supers attributes localFlag
        pre).yielded,
      (discoverUnits env windows names types supers attributes localFlag
        pre).output, true⟩ := by
  induction pre with
  | nil =>
    have himp : _import_module env fp = Except.error () := by
      unfold _import_module
      rw [if_neg hfp]
    rw [List.nil_append]
    show (match _import_module env fp with
      | Except.error _ => (⟨[], [], true⟩ : DiscoverResult)
      | Except.ok mems =>
        let r := discoverUnits env windows names types supers attributes
          localFlag post
        ⟨unitYields windows names types supers attributes localFlag
            fp mems ++ r.yielded,
          env.output fp ++ r.output, r.failed⟩) = _
    rw [himp]
    rfl
  | cons u us ih =>
    obtain ⟨q, b⟩ := u
    have hq : q ∈ env.files := hpre (q, b) (List.mem_cons_self _ _)
    have himp : _import_module env q = Except.ok (env.members q) := by
      unfold _import_module
      rw [if_pos hq]
    have ih' := ih fun v hv => hpre v (List.mem_cons_of_mem _ hv)
    rw [List.cons_append]
    show (match _import_module env q with
      | Except.error _ => (⟨[], [], true⟩ : DiscoverResult)
      | Except.ok mems =>
        let r := discoverUnits env windows names types supers attributes
          localFlag (us ++ (fp, bp) :: post)
        ⟨unitYields windows names types supers attributes localFlag
            q mems ++ r.yielded,
          env.output q ++ r.output, r.failed⟩) =
      ⟨(match _import_module env q with
        | Except.error _ => (⟨[], [], true⟩ : DiscoverResult)
        | Except.ok mems =>
          let r := discoverUnits env windows names types supers attributes
            localFlag us
          ⟨unitYields windows names types supers attributes localFlag
              q mems ++ r.yielded,
            env.output q ++ r.output, r.failed⟩).yielded,
        (match _import_module env q with
        | Except.error _ => (⟨[], [], true⟩ : DiscoverResult)
        | Except.ok mems =>
          let r := discoverUnits env windows names types supers attributes
            localFlag us
          ⟨unitYields windows names types supers attributes localFlag
              q mems ++ r.yielded,
            env.output q ++ r.output, r.failed⟩).output, true⟩
    rw [himp, ih']

/-- C8: when the unit list contains a nonexistent file (all earlier units
existing) and the filters do not short-circuit, discovery fails exactly
when that unit is reached: it raises before that unit's members are
enumerated, yields and prints only what the earlier units produced, and
loads nothing after the missing file. -/
theorem discovery_missing_file_fatal (env : Env) (windows : Bool)
    (pre post : List (String × String)) (fp bp : String)
    (names : List String) (types supers : List Nat)
    (attributes : List String) (localFlag : Bool)
    (hfilters : names ≠ [] ∨ types ≠ [] ∨ supers ≠ [] ∨ attributes ≠ [])
    (hpre : ∀ u ∈ pre, u.1 ∈ env.files) (hfp : fp ∉ env.files) :
    _iimport_objects env windows (pre ++ (fp, bp) :: post) names types
      supers attributes localFlag =
    ⟨(_iimport_objects env windows pre names types supers attributes
        localFlag).yielded,
      (_iimport_objects env windows pre names types supers attributes
        localFlag).output, true⟩ := by
  have hlhs : pre ++ (fp, bp) :: post ≠ [] := by
    intro hc
    exact List.cons_ne_nil _ _ (List.append_eq_nil.mp hc).2
  have hmain := discoverUnits_missing env windows names types supers
    attributes localFlag pre fp bp post hpre hfp
  rcases eq_or_ne pre [] with hpe | hpne
  · subst hpe
    rw [_iimport_objects, if_pos ⟨hlhs, hfilters⟩, hmain]
    rw [_iimport_objects, if_neg (fun hc => hc.1 rfl)]
    rfl
  · rw [_iimport_objects, if_pos ⟨hlhs, hfilters⟩, hmain]
    rw [_iimport_objects, if_pos ⟨hpne, hfilters⟩]

/-- Witness for C8: a call over an existing unit, then a missing one,
then another unit fails, yielding and printing only the first unit's
contribution. -/
theorem discovery_missing_file_fatal_witness :
    _iimport_objects envA false
      [("plug.py", "."), ("ghost.py", "."), ("other.py", ".")]
      ["Foo"] [] [] [] false =
    ⟨(_iimport_objects envA false [("plug.py", ".")] ["Foo"] [] [] []
        false).yielded,
      (_iimport_objects envA false [("plug.py", ".")] ["Foo"] [] [] []
        false).output, true⟩ :=
  discovery_missing_file_fatal envA false [("plug.py", ".")]
    [("other.py", ".")] "ghost.py" "." ["Foo"] [] [] [] false
    (Or.inl (by decide)) (by decide) (by decide)

end Coala
